import Mathlib

/-!
Verification of the Sphinx configuration module `src/conf.py` of the
repository Kenny2github/blog.abyx.dev.

The module is a straight-line sequence of assignments whose right-hand
sides are Python literal displays (strings, lists, tuples, dicts, None).
We embed it as a small expression language together with an evaluator.
The language also contains variable references (which raise `NameError`
when unbound) and reads of the external environment (which can raise
`KeyError`), so that totality and determinism of the module are
meaningful statements: `conf.py` happens to use neither construct.
-/

/-- Values of the Python fragment used by `conf.py`: strings, `None`,
list/tuple/dict displays.  Dict keys in `conf.py` are string literals. -/
inductive PyVal where
  | str : String → PyVal
  | noneV : PyVal
  | list : List PyVal → PyVal
  | tuple : List PyVal → PyVal
  | dict : List (String × PyVal) → PyVal

/-- Expressions of the fragment: literal displays built from
sub-expressions, plus variable references and environment reads. -/
inductive PyExpr where
  | strE : String → PyExpr
  | noneE : PyExpr
  | listE : List PyExpr → PyExpr
  | tupleE : List PyExpr → PyExpr
  | dictE : List (String × PyExpr) → PyExpr
  | nameE : String → PyExpr
  | envReadE : String → PyExpr

/-- Module namespace: bindings in most-recent-first order, as produced
by successive assignments. -/
def lookup : List (String × PyVal) → String → Option PyVal
  | [], _ => Option.none
  | (k, v) :: rest, n => if k = n then Option.some v else lookup rest n

mutual

/-- Evaluate an expression.  `ext` is the external environment (for
example `os.environ`); `env` is the module namespace so far.  Evaluation
of a literal display always succeeds; a reference to an unbound name or
a missing environment key raises. -/
def evalExpr (ext : String → Option PyVal) (env : List (String × PyVal)) :
    PyExpr → Except String PyVal
  | .strE s => .ok (.str s)
  | .noneE => .ok .noneV
  | .listE es =>
    match evalExprs ext env es with
    | .ok vs => .ok (.list vs)
    | .error m => .error m
  | .tupleE es =>
    match evalExprs ext env es with
    | .ok vs => .ok (.tuple vs)
    | .error m => .error m
  | .dictE kvs =>
    match evalPairs ext env kvs with
    | .ok vs => .ok (.dict vs)
    | .error m => .error m
  | .nameE n =>
    match lookup env n with
    | Option.some v => .ok v
    | Option.none => .error ("NameError: " ++ n)
  | .envReadE n =>
    match ext n with
    | Option.some v => .ok v
    | Option.none => .error ("KeyError: " ++ n)

/-- Evaluate a list of expressions left to right. -/
def evalExprs (ext : String → Option PyVal) (env : List (String × PyVal)) :
    List PyExpr → Except String (List PyVal)
  | [] => .ok []
  | e :: es =>
    match evalExpr ext env e with
    | .ok v =>
      match evalExprs ext env es with
      | .ok vs => .ok (v :: vs)
      | .error m => .error m
    | .error m => .error m

/-- Evaluate the key-value pairs of a dict display left to right. -/
def evalPairs (ext : String → Option PyVal) (env : List (String × PyVal)) :
    List (String × PyExpr) → Except String (List (String × PyVal))
  | [] => .ok []
  | (k, e) :: rest =>
    match evalExpr ext env e with
    | .ok v =>
      match evalPairs ext env rest with
      | .ok vs => .ok ((k, v) :: vs)
      | .error m => .error m
    | .error m => .error m

end

/-- Run a sequence of assignments, threading the namespace.  An
assignment evaluates its right-hand side in the current namespace and
binds the target; any raise aborts the module. -/
def evalStmts (ext : String → Option PyVal) :
    List (String × PyExpr) → List (String × PyVal) →
    Except String (List (String × PyVal))
  | [], env => .ok env
  | (n, e) :: rest, env =>
    match evalExpr ext env e with
    | .ok v => evalStmts ext rest ((n, v) :: env)
    | .error m => .error m

/-- The assignments of `src/conf.py`, in source order. -/
def confStmts : List (String × PyExpr) := [
  ("project", .strE "AbyxDev\x27s Blog"),
  ("copyright", .strE "2022, AbyxDev"),
  ("author", .strE "AbyxDev"),
  ("extensions", .listE [.strE "sphinx.ext.intersphinx",
                         .strE "sphinxext.opengraph"]),
  ("intersphinx_mapping", .dictE [("python",
      .tupleE [.strE "https://docs.python.org/3", .noneE])]),
  ("templates_path", .listE [.strE "_templates"]),
  ("exclude_patterns", .listE [.strE "_build", .strE "Thumbs.db",
                               .strE ".DS_Store", .strE "README"]),
  ("rst_prolog", .strE "\n.. role:: python(code)\n    :language: python\n    :class: highlight\n"),
  ("rst_epilog", .strE "\n\n----\n\n*If you have something to say about this page,\nfeel free to* \x60let me know <https://abyx.dev/contact>\x60_!\n"),
  ("html_theme", .strE "furo"),
  ("html_static_path", .listE [.strE "_static"]),
  ("html_title", .strE "AbyxDev\x27s Blog"),
  ("html_favicon", .strE "_static/favicon.ico"),
  ("ogp_site_url", .strE "https://blog.abyx.dev"),
  ("ogp_site_name", .strE "AbyxDev\x27s Blog"),
  ("ogp_image", .strE "_static/Abyx.png"),
  ("ogp_image_alt", .strE "AbyxDev"),
  ("ogp_type", .strE "article")
]

/-- Evaluate the whole module starting from the empty namespace. -/
def evalConf (ext : String → Option PyVal) :
    Except String (List (String × PyVal)) :=
  evalStmts ext confStmts []

/-- The namespace produced by `evalConf`, most recent binding first. -/
def confEnv : List (String × PyVal) := [
  ("ogp_type", .str "article"),
  ("ogp_image_alt", .str "AbyxDev"),
  ("ogp_image", .str "_static/Abyx.png"),
  ("ogp_site_name", .str "AbyxDev\x27s Blog"),
  ("ogp_site_url", .str "https://blog.abyx.dev"),
  ("html_favicon", .str "_static/favicon.ico"),
  ("html_title", .str "AbyxDev\x27s Blog"),
  ("html_static_path", .list [.str "_static"]),
  ("html_theme", .str "furo"),
  ("rst_epilog", .str "\n\n----\n\n*If you have something to say about this page,\nfeel free to* \x60let me know <https://abyx.dev/contact>\x60_!\n"),
  ("rst_prolog", .str "\n.. role:: python(code)\n    :language: python\n    :class: highlight\n"),
  ("exclude_patterns", .list [.str "_build", .str "Thumbs.db",
                              .str ".DS_Store", .str "README"]),
  ("templates_path", .list [.str "_templates"]),
  ("intersphinx_mapping", .dict [("python",
      .tuple [.str "https://docs.python.org/3", .noneV])]),
  ("extensions", .list [.str "sphinx.ext.intersphinx",
                        .str "sphinxext.opengraph"]),
  ("author", .str "AbyxDev"),
  ("copyright", .str "2022, AbyxDev"),
  ("project", .str "AbyxDev\x27s Blog")
]

/-- Look a key up in the result of evaluating the module. -/
def confLookup (ext : String → Option PyVal) (key : String) : Option PyVal :=
  match evalConf ext with
  | .ok env => lookup env key
  | .error _ => Option.none

/-- Evaluating `conf.py` yields exactly `confEnv`, whatever the external
environment. -/
theorem evalConf_eq (ext : String → Option PyVal) :
    evalConf ext = Except.ok confEnv := rfl

/-- C1: evaluating `src/conf.py` binds the project-metadata keys to the
expected literal values: `project` to "AbyxDev's Blog", `copyright` to
"2022, AbyxDev", and `author` to "AbyxDev". -/
theorem conf_project_metadata (ext : String → Option PyVal) :
    confLookup ext "project" = Option.some (.str "AbyxDev\x27s Blog") ∧
    confLookup ext "copyright" = Option.some (.str "2022, AbyxDev") ∧
    confLookup ext "author" = Option.some (.str "AbyxDev") :=
  ⟨rfl, rfl, rfl⟩

/-- C2: after evaluating `src/conf.py`, `extensions` is a list of exactly
two extension-name strings, in order: first "sphinx.ext.intersphinx",
then "sphinxext.opengraph". -/
theorem conf_extensions (ext : String → Option PyVal) :
    confLookup ext "extensions" =
      Option.some (.list [.str "sphinx.ext.intersphinx",
                          .str "sphinxext.opengraph"]) :=
  rfl

/-- C3: evaluating `src/conf.py` is total and never raises: for every
external environment the module runs to completion, producing its
bindings, rather than an error. -/
theorem conf_total (ext : String → Option PyVal) :
    ∃ env, evalConf ext = Except.ok env :=
  ⟨confEnv, rfl⟩

/-- C4: evaluating `src/conf.py` is deterministic: the module reads
nothing from the external environment, so any two evaluations produce
identical bindings for every key. -/
theorem conf_deterministic (ext₁ ext₂ : String → Option PyVal) :
    evalConf ext₁ = evalConf ext₂ :=
  rfl

/-- C5: after evaluating `src/conf.py`, the theme-selection key
`html_theme` is bound to the string "furo". -/
theorem conf_html_theme (ext : String → Option PyVal) :
    confLookup ext "html_theme" = Option.some (.str "furo") :=
  rfl

/-- C6: after evaluating `src/conf.py`, the static-asset and template
path keys hold the expected literal values: `templates_path` is the
one-element list containing "_templates", `html_static_path` is the
one-element list containing "_static", and `html_favicon` is the string
"_static/favicon.ico". -/
theorem conf_static_paths (ext : String → Option PyVal) :
    confLookup ext "templates_path" = Option.some (.list [.str "_templates"]) ∧
    confLookup ext "html_static_path" = Option.some (.list [.str "_static"]) ∧
    confLookup ext "html_favicon" = Option.some (.str "_static/favicon.ico") :=
  ⟨rfl, rfl, rfl⟩

/-- C7: after evaluating `src/conf.py`, the page prologue/epilogue keys
hold the expected literal text: `rst_prolog` is exactly the string
defining the :python: code role, and `rst_epilog` is exactly the string
containing the "----" transition and the feedback sentence linking to
https://abyx.dev/contact. -/
theorem conf_prolog_epilog (ext : String → Option PyVal) :
    confLookup ext "rst_prolog" =
      Option.some (.str "\n.. role:: python(code)\n    :language: python\n    :class: highlight\n") ∧
    confLookup ext "rst_epilog" =
      Option.some (.str "\n\n----\n\n*If you have something to say about this page,\nfeel free to* \x60let me know <https://abyx.dev/contact>\x60_!\n") :=
  ⟨rfl, rfl⟩

/-- C8: after evaluating `src/conf.py`, the remaining listed keys hold
the expected literal values: `intersphinx_mapping` maps exactly the one
key "python" to the pair ("https://docs.python.org/3", None);
`exclude_patterns` is exactly ["_build", "Thumbs.db", ".DS_Store",
"README"]; and the OpenGraph keys hold their expected strings. -/
theorem conf_remaining_keys (ext : String → Option PyVal) :
    confLookup ext "intersphinx_mapping" =
      Option.some (.dict [("python",
        .tuple [.str "https://docs.python.org/3", .noneV])]) ∧
    confLookup ext "exclude_patterns" =
      Option.some (.list [.str "_build", .str "Thumbs.db",
                          .str ".DS_Store", .str "README"]) ∧
    confLookup ext "ogp_site_url" = Option.some (.str "https://blog.abyx.dev") ∧
    confLookup ext "ogp_site_name" = Option.some (.str "AbyxDev\x27s Blog") ∧
    confLookup ext "ogp_image" = Option.some (.str "_static/Abyx.png") ∧
    confLookup ext "ogp_image_alt" = Option.some (.str "AbyxDev") ∧
    confLookup ext "ogp_type" = Option.some (.str "article") :=
  ⟨rfl, rfl, rfl, rfl, rfl, rfl, rfl⟩

/-- C9: site-name consistency invariant: the keys `project`,
`html_title`, and `ogp_site_name` are all bound to one and the same
string, "AbyxDev's Blog". -/
theorem conf_site_name_consistent (ext : String → Option PyVal) :
    confLookup ext "project" = confLookup ext "html_title" ∧
    confLookup ext "html_title" = confLookup ext "ogp_site_name" ∧
    confLookup ext "project" = Option.some (.str "AbyxDev\x27s Blog") :=
  ⟨rfl, rfl, rfl⟩

/-- Asset-path containment: the configuration binds a one-element
`html_static_path`, and the string bound to `key` begins with that
directory followed by "/" (that is, it decomposes as
`dir ++ "/" ++ rest`). -/
def assetUnderStatic (ext : String → Option PyVal) (key : String) : Prop :=
  ∃ dir rest,
    confLookup ext "html_static_path" = Option.some (.list [.str dir]) ∧
    confLookup ext key = Option.some (.str (dir ++ "/" ++ rest))

/-- C10: asset-path containment invariant: every asset path named by
the configuration (`html_favicon` and `ogp_image`) begins with the sole
directory listed in `html_static_path` followed by "/". -/
theorem conf_assets_under_static (ext : String → Option PyVal) :
    assetUnderStatic ext "html_favicon" ∧ assetUnderStatic ext "ogp_image" :=
  ⟨⟨"_static", "favicon.ico", rfl, rfl⟩,
   ⟨"_static", "Abyx.png", rfl, rfl⟩⟩
